import Mathlib

/-!
# Verification of the GS1 DataMatrix / barcode parsing layer

Shallow embedding of the scanner-string parsing module of the Apotheca
medicine-inventory application (GS1 DataMatrix parser for French medicine
packaging).  JavaScript strings are modelled as `List Char`; nullable
values as `Option`; the mutable result record threaded through the field
scanner becomes explicit state passing; the scanning `while` loop over a
cursor becomes recursion over the remaining character list, driven by a
fuel argument (the fuel is always sufficient, see `parseLoopF_fuel_irrel`),
so every definition stays executable by `decide`/`rfl`.
-/

namespace Apotheca

/-- GS1 Group Separator character (ASCII 29), source constant `GS`. -/
def GS : Char := Char.ofNat 29

/-- Whitespace as recognised by JavaScript's `String.prototype.trim` and
`Number.parseInt`: ASCII whitespace plus the common Unicode space
characters (line/paragraph separators, NBSP, BOM).  The full JS set also
contains the rarer Unicode `Zs` code points, which never occur in the
inputs considered here. -/
def isJsWhitespace (c : Char) : Bool :=
  c = ' ' || c = '\t' || c = '\n' || c = '\r' ||
  c = Char.ofNat 11 || c = Char.ofNat 12 || c = Char.ofNat 160 ||
  c = Char.ofNat 0x2028 || c = Char.ofNat 0x2029 || c = Char.ofNat 0xFEFF

/-- JavaScript `String.prototype.trim`: drop leading and trailing
whitespace. -/
def jsTrim (s : List Char) : List Char :=
  ((s.dropWhile isJsWhitespace).reverse.dropWhile isJsWhitespace).reverse

/-- Value of a list of decimal digit characters, most significant first. -/
def digitsToNat (ds : List Char) : Nat :=
  ds.foldl (fun acc c => acc * 10 + (c.toNat - 48)) 0

/-- JavaScript `Number.parseInt(s, 10)` (with the subsequent `Number.isNaN`
check modelled by `Option`): skip leading whitespace, read an optional
sign, then the longest prefix of decimal digits; `none` when no digit
follows. -/
def jsParseInt (s : List Char) : Option Int :=
  let t := s.dropWhile isJsWhitespace
  match t with
  | '-' :: r =>
      let ds := r.takeWhile Char.isDigit
      if ds.isEmpty then none else some (-(digitsToNat ds : Int))
  | '+' :: r =>
      let ds := r.takeWhile Char.isDigit
      if ds.isEmpty then none else some (digitsToNat ds : Int)
  | r =>
      let ds := r.takeWhile Char.isDigit
      if ds.isEmpty then none else some (digitsToNat ds : Int)

/-- Decimal digit characters of a natural number, JavaScript `String(n)` for
`n : Nat`. -/
def natToChars (n : Nat) : List Char := Nat.toDigits 10 n

/-- JavaScript `String(n)` for an integral number `n`. -/
def intToChars (n : Int) : List Char :=
  if n < 0 then '-' :: natToChars n.natAbs else natToChars n.toNat

/-- JavaScript `String(n).padStart(2, "0")`, the `pad` helper of
`parseGs1Date`. -/
def padStart2 (s : List Char) : List Char :=
  List.replicate (2 - s.length) '0' ++ s

/-- Gregorian leap year, as implemented by the JavaScript `Date` object. -/
def isLeapYear (y : Int) : Bool :=
  y % 4 = 0 && (!(y % 100 = 0) || y % 400 = 0)

/-- `new Date(year, mm, 0).getDate()` for a human month number `mm` in
1..12: the number of days of month `mm` of `year` in the Gregorian
calendar (day 0 of the 0-indexed month `mm` is the last day of the
0-indexed month `mm - 1`, i.e. of the human month `mm`). -/
def daysInMonth (year : Int) (mm : Int) : Int :=
  if mm = 2 then (if isLeapYear year then 29 else 28)
  else if mm = 4 ∨ mm = 6 ∨ mm = 9 ∨ mm = 11 then 30
  else 31

/-- Source `Gs1ParseResult`; the spec names the fields `productCode`
(`cip13`), `tradeItemCode` (`gtin`) and `isGs1Structured` (`isGs1`). -/
structure Gs1ParseResult where
  cip13 : Option (List Char)
  expiryDate : Option (List Char)
  batchNumber : Option (List Char)
  serialNumber : Option (List Char)
  gtin : Option (List Char)
  isGs1 : Bool
deriving DecidableEq, Repr

/-- The all-null result `empty` built at the top of `parseGs1DataMatrix`. -/
def emptyResult : Gs1ParseResult :=
  { cip13 := none, expiryDate := none, batchNumber := none,
    serialNumber := none, gtin := none, isGs1 := false }

/-- Source table `FIXED_LENGTH_AIS`: fixed-length AI code to data length. -/
def FIXED_LENGTH_AIS (ai : List Char) : Option Nat :=
  if ai = ['0', '1'] ∨ ai = ['0', '2'] then some 14
  else if ai = ['1', '7'] ∨ ai = ['1', '1'] ∨ ai = ['1', '3'] ∨
          ai = ['1', '5'] ∨ ai = ['1', '6'] then some 6
  else none

/-- Source set `VARIABLE_AIS`: variable-length AIs the parser cares about. -/
def VARIABLE_AIS (ai : List Char) : Bool :=
  ai = ['1', '0'] || ai = ['2', '1'] || ai = ['2', '2'] ||
  ai = ['3', '0'] || ai = ['3', '7']

/-- Source `stripFnc1Prefix`: strip the 3-character FNC1 symbology marker
(`]d2`, `]Q3` or `]C1`) from raw scanner output. -/
def stripFnc1Prefix (data : List Char) : List Char :=
  if data.take 3 = [']', 'd', '2'] ∨ data.take 3 = [']', 'Q', '3'] ∨
     data.take 3 = [']', 'C', '1'] then
    data.drop 3
  else data

/-- Source `ensureAi01Prefix`: return the data unchanged when it starts
with AI `01`; when the regular expression `/^0340\d{10}/` matches (first
four characters `0340` followed by at least ten decimal digits), prepend
`01`; otherwise `none`. -/
def ensureAi01Prefix (data : List Char) : Option (List Char) :=
  if data.take 2 = ['0', '1'] then some data
  else if data.take 4 = ['0', '3', '4', '0'] ∧ 14 ≤ data.length ∧
          ((data.drop 4).take 10).all Char.isDigit then
    some (['0', '1'] ++ data)
  else none

/-- Source `gtinToCip13`: `gtin.slice(1, 14)` when the GTIN has length 14,
else `null`. -/
def gtinToCip13 (gtin : List Char) : Option (List Char) :=
  if gtin.length = 14 then some ((gtin.drop 1).take 13) else none

/-- Source `parseGs1Date`: parse a GS1 `YYMMDD` value into an ISO
`YYYY-MM-DD` string.  `DD = 00` means last day of the month; `YY < 50`
resolves to `20YY`, otherwise `19YY`. -/
def parseGs1Date (yymmdd : List Char) : Option (List Char) :=
  if yymmdd.length = 6 then
    match jsParseInt (yymmdd.take 2), jsParseInt ((yymmdd.drop 2).take 2),
          jsParseInt ((yymmdd.drop 4).take 2) with
    | some yy, some mm, some dd0 =>
        if mm < 1 ∨ 12 < mm then none
        else
          let year : Int := if yy < 50 then 2000 + yy else 1900 + yy
          let dd : Int := if dd0 = 0 then daysInMonth year mm else dd0
          some (intToChars year ++ '-' :: padStart2 (intToChars mm) ++
                '-' :: padStart2 (intToChars dd))
    | _, _, _ => none
  else none

/-- Source `processFixedAi`: record a fixed-length field (`01` sets the
GTIN and derives the CIP13, `17` sets the expiry date; other fixed AIs
are read but not surfaced). -/
def processFixedAi (ai : List Char) (value : List Char)
    (result : Gs1ParseResult) : Gs1ParseResult :=
  if ai = ['0', '1'] then
    { result with gtin := some value, cip13 := gtinToCip13 value }
  else if ai = ['1', '7'] then
    { result with expiryDate := parseGs1Date value }
  else result

/-- Source `processVariableAi`: record a variable-length field (`10` batch,
`21` serial; other variable AIs are read but not surfaced). -/
def processVariableAi (ai : List Char) (value : List Char)
    (result : Gs1ParseResult) : Gs1ParseResult :=
  if ai = ['1', '0'] then { result with batchNumber := some value }
  else if ai = ['2', '1'] then { result with serialNumber := some value }
  else result

/-- The scanning `while` loop of `parseGs1DataMatrix`, on the remaining
characters (the cursor `pos` becomes dropping a prefix).  Source
`readVariableField` (read until the group separator or the end, skip the
separator) becomes `takeWhile`/`dropWhile`.  The `fuel` argument only
drives the recursion; `parseLoop` below always supplies enough. -/
def parseLoopF (fuel : Nat) (data : List Char)
    (result : Gs1ParseResult) : Gs1ParseResult :=
  match fuel with
  | 0 => result
  | fuel + 1 =>
    match data with
    | [] => result
    | _ :: _ =>
      let ai := data.take 2
      match FIXED_LENGTH_AIS ai with
      | some len =>
          parseLoopF fuel (data.drop (2 + len))
            (processFixedAi ai ((data.drop 2).take len) result)
      | none =>
          if VARIABLE_AIS ai then
            let rest := data.drop 2
            parseLoopF fuel ((rest.dropWhile (fun c => !(c = GS))).drop 1)
              (processVariableAi ai (rest.takeWhile (fun c => !(c = GS))) result)
          else result

/-- The scanning loop with its fuel supplied. -/
def parseLoop (data : List Char) (result : Gs1ParseResult) : Gs1ParseResult :=
  parseLoopF (data.length + 1) data result

/-- Source `parseGs1DataMatrix`: reject inputs shorter than 16 characters
(the source's `!raw || raw.length < 16`; the empty string is also shorter
than 16), strip the symbology marker, normalise the AI `01` lead-in, then
scan the fields. -/
def parseGs1DataMatrix (raw : List Char) : Gs1ParseResult :=
  if raw.length < 16 then emptyResult
  else
    match ensureAi01Prefix (stripFnc1Prefix raw) with
    | none => emptyResult
    | some data => parseLoop data { emptyResult with isGs1 := true }

/-- Source `isCip13`: the regular expression `/^\d{13}$/` and a `340`
lead-in. -/
def isCip13 (code : List Char) : Bool :=
  (code.length = 13 && code.all Char.isDigit) && code.take 3 = ['3', '4', '0']

/-- Provenance tag of a `ScanResult`; the spec names the values
`"structured"` (`datamatrix`) and `"plain"` (`barcode`). -/
inductive ScanSource where
  | datamatrix
  | barcode
deriving DecidableEq, Repr

/-- Source `ScanResult`; the spec names the first field `productCode`. -/
structure ScanResult where
  cip13 : List Char
  expiryDate : Option (List Char)
  batchNumber : Option (List Char)
  source : ScanSource
deriving DecidableEq, Repr

/-- JavaScript truthiness of a `string | null` value: `null` and the empty
string are falsy. -/
def strTruthy : Option (List Char) → Bool
  | none => false
  | some s => !s.isEmpty

/-- Source `parseScanResult`: try the GS1 DataMatrix parse (requiring
`gs1.isGs1 && gs1.cip13`, with JavaScript truthiness on the string);
otherwise trim and try a plain CIP13 barcode; otherwise `null`. -/
def parseScanResult (rawCode : List Char) : Option ScanResult :=
  let gs1 := parseGs1DataMatrix rawCode
  if gs1.isGs1 && strTruthy gs1.cip13 then
    some { cip13 := gs1.cip13.getD [], expiryDate := gs1.expiryDate,
           batchNumber := gs1.batchNumber, source := ScanSource.datamatrix }
  else
    let cleaned := jsTrim rawCode
    if isCip13 cleaned then
      some { cip13 := cleaned, expiryDate := none, batchNumber := none,
             source := ScanSource.barcode }
    else none

/-! ### Specification-side vocabulary

The definitions below do not model source code; they give the claims'
wording (digit strings, the century rule, the calendar, well-formed AI
field sequences) a precise form to state theorems with. -/

/-- The decimal digit character of `n < 10`. -/
def digitChar (n : Nat) : Char := Char.ofNat (48 + n)

/-- The canonical two-digit, zero-padded rendering of `n < 100`. -/
def twoDigitChars (n : Nat) : List Char := [digitChar (n / 10), digitChar (n % 10)]

/-- The canonical four-digit rendering of `n < 10000`. -/
def fourDigitChars (n : Nat) : List Char :=
  [digitChar (n / 1000 % 10), digitChar (n / 100 % 10),
   digitChar (n / 10 % 10), digitChar (n % 10)]

/-- A six-digit `YYMMDD` value assembled from its numeric components. -/
def sixDigitChars (yy mm dd : Nat) : List Char :=
  twoDigitChars yy ++ twoDigitChars mm ++ twoDigitChars dd

/-- The spec's century rule for two-digit years: `YY < 50` is `20YY`,
otherwise `19YY`. -/
def resolveYear (yy : Nat) : Nat := if yy < 50 then 2000 + yy else 1900 + yy

/-- Last day of month `m` of year `y` in the Gregorian calendar: the
spec's "last calendar day of the resolved year and month, leap-year
aware". -/
def lastDayOfMonth (y m : Nat) : Nat :=
  if m = 2 then (if y % 4 = 0 ∧ (y % 100 ≠ 0 ∨ y % 400 = 0) then 29 else 28)
  else if m = 4 ∨ m = 6 ∨ m = 9 ∨ m = 11 then 30
  else 31

/-- Well-formed suffixes of "further AI fields" that never use AI `01`: a
sequence of fixed-length fields (complete, with an AI other than `01`)
and variable-length fields (value free of the group separator, each but
possibly the last followed by the separator). -/
inductive Ai01FreeFields : List Char → Prop where
  | nil : Ai01FreeFields []
  | fixed (ai v rest : List Char) (n : Nat) (hai : FIXED_LENGTH_AIS ai = some n)
      (h01 : ai ≠ ['0', '1']) (hv : v.length = n) (h : Ai01FreeFields rest) :
      Ai01FreeFields (ai ++ v ++ rest)
  | varSep (ai v rest : List Char) (hai : VARIABLE_AIS ai = true) (hGS : GS ∉ v)
      (h : Ai01FreeFields rest) : Ai01FreeFields (ai ++ v ++ GS :: rest)
  | varEnd (ai v : List Char) (hai : VARIABLE_AIS ai = true) (hGS : GS ∉ v) :
      Ai01FreeFields (ai ++ v)

/-- The data-model invariant relating `cip13` to `gtin`: a non-null
product code comes from a recorded 14-character trade item code by
dropping its first character. -/
def CipInv (r : Gs1ParseResult) : Prop :=
  ∀ c, r.cip13 = some c →
    ∃ g, r.gtin = some g ∧ g.length = 14 ∧ c = (g.drop 1).take 13

/-! ### The scanning loop: fuel irrelevance and unfolding equations -/

theorem parseLoopF_cons (fuel : Nat) (c : Char) (cs : List Char)
    (r : Gs1ParseResult) :
    parseLoopF (fuel + 1) (c :: cs) r =
      match FIXED_LENGTH_AIS ((c :: cs).take 2) with
      | some len =>
          parseLoopF fuel ((c :: cs).drop (2 + len))
            (processFixedAi ((c :: cs).take 2) (((c :: cs).drop 2).take len) r)
      | none =>
          if VARIABLE_AIS ((c :: cs).take 2) = true then
            parseLoopF fuel ((((c :: cs).drop 2).dropWhile (fun x => !(x = GS))).drop 1)
              (processVariableAi ((c :: cs).take 2)
                (((c :: cs).drop 2).takeWhile (fun x => !(x = GS))) r)
          else r := rfl

theorem parseLoopF_fuel_irrel (f1 : Nat) : ∀ (f2 : Nat) (data : List Char)
    (r : Gs1ParseResult), data.length < f1 → data.length < f2 →
    parseLoopF f1 data r = parseLoopF f2 data r := by
  induction f1 with
  | zero => intro f2 data r h1 h2; omega
  | succ n ih =>
    intro f2 data r h1 h2
    cases data with
    | nil =>
      cases f2 with
      | zero => simp at h2
      | succ m => rfl
    | cons c cs =>
      cases f2 with
      | zero => simp at h2
      | succ m =>
        simp only [List.length_cons] at h1 h2
        rw [parseLoopF_cons, parseLoopF_cons]
        cases hf : FIXED_LENGTH_AIS ((c :: cs).take 2) with
        | some len =>
          simp only
          apply ih
          · simp only [List.length_drop, List.length_cons]; omega
          · simp only [List.length_drop, List.length_cons]; omega
        | none =>
          simp only
          by_cases hv : VARIABLE_AIS ((c :: cs).take 2) = true
          · simp only [hv, if_pos]
            have h3 := (List.dropWhile_sublist
              (l := (c :: cs).drop 2) (fun x => !(x = GS))).length_le
            simp only [List.length_drop, List.length_cons] at h3
            have h4 : ((((c :: cs).drop 2).dropWhile
                (fun x => !(x = GS))).drop 1).length ≤ cs.length - 1 := by
              simp only [List.length_drop]; omega
            apply ih <;> omega
          · simp at hv
            simp [hv]

theorem parseLoop_nil (r : Gs1ParseResult) : parseLoop [] r = r := rfl

theorem parseLoop_fixed (c : Char) (cs : List Char) (r : Gs1ParseResult)
    (len : Nat) (hf : FIXED_LENGTH_AIS ((c :: cs).take 2) = some len) :
    parseLoop (c :: cs) r =
      parseLoop ((c :: cs).drop (2 + len))
        (processFixedAi ((c :: cs).take 2) (((c :: cs).drop 2).take len) r) := by
  show parseLoopF ((c :: cs).length + 1) (c :: cs) r = _
  rw [parseLoopF_cons, hf]
  apply parseLoopF_fuel_irrel
  · simp only [List.length_drop, List.length_cons]; omega
  · omega

theorem parseLoop_var (c : Char) (cs : List Char) (r : Gs1ParseResult)
    (hf : FIXED_LENGTH_AIS ((c :: cs).take 2) = none)
    (hv : VARIABLE_AIS ((c :: cs).take 2) = true) :
    parseLoop (c :: cs) r =
      parseLoop ((((c :: cs).drop 2).dropWhile (fun x => !(x = GS))).drop 1)
        (processVariableAi ((c :: cs).take 2)
          (((c :: cs).drop 2).takeWhile (fun x => !(x = GS))) r) := by
  show parseLoopF ((c :: cs).length + 1) (c :: cs) r = _
  rw [parseLoopF_cons, hf]
  simp only [hv, if_pos]
  apply parseLoopF_fuel_irrel
  · have h3 := (List.dropWhile_sublist
      (l := (c :: cs).drop 2) (fun x => !(x = GS))).length_le
    simp only [List.length_drop, List.length_cons] at h3 ⊢
    omega
  · omega

theorem parseLoop_unknown (c : Char) (cs : List Char) (r : Gs1ParseResult)
    (hf : FIXED_LENGTH_AIS ((c :: cs).take 2) = none)
    (hv : VARIABLE_AIS ((c :: cs).take 2) = false) :
    parseLoop (c :: cs) r = r := by
  show parseLoopF ((c :: cs).length + 1) (c :: cs) r = _
  rw [parseLoopF_cons, hf]
  simp at hv
  simp [hv]

/-! ### Field processors: characterisations and preserved fields -/

theorem processFixedAi_01 (v : List Char) (r : Gs1ParseResult) :
    processFixedAi ['0', '1'] v r =
      { r with gtin := some v, cip13 := gtinToCip13 v } := by
  simp [processFixedAi]

theorem processFixedAi_fields (ai v : List Char) (r : Gs1ParseResult) :
    (processFixedAi ai v r).isGs1 = r.isGs1 ∧
    (processFixedAi ai v r).batchNumber = r.batchNumber ∧
    (processFixedAi ai v r).serialNumber = r.serialNumber := by
  unfold processFixedAi
  split_ifs <;> simp

theorem processFixedAi_gtin_some (ai v : List Char) (r : Gs1ParseResult)
    (h : r.gtin.isSome) : (processFixedAi ai v r).gtin.isSome := by
  unfold processFixedAi
  split_ifs <;> simp [h]

theorem processFixedAi_cipInv (ai v : List Char) (r : Gs1ParseResult)
    (h : CipInv r) : CipInv (processFixedAi ai v r) := by
  unfold processFixedAi
  split_ifs with h1 h2
  · intro c hc
    simp only at hc
    unfold gtinToCip13 at hc
    by_cases hl : v.length = 14
    · rw [if_pos hl] at hc
      simp only [Option.some.injEq] at hc
      exact ⟨v, rfl, hl, hc.symm⟩
    · rw [if_neg hl] at hc
      exact absurd hc (by simp)
  · intro c hc
    simp only at hc
    exact h c hc
  · exact h

theorem processVariableAi_fields (ai v : List Char) (r : Gs1ParseResult) :
    (processVariableAi ai v r).isGs1 = r.isGs1 ∧
    (processVariableAi ai v r).cip13 = r.cip13 ∧
    (processVariableAi ai v r).gtin = r.gtin ∧
    (processVariableAi ai v r).expiryDate = r.expiryDate := by
  unfold processVariableAi
  split_ifs <;> simp

/-! ### Loop-preserved invariants -/

theorem parseLoopF_isGs1 (fuel : Nat) : ∀ (data : List Char)
    (r : Gs1ParseResult), (parseLoopF fuel data r).isGs1 = r.isGs1 := by
  induction fuel with
  | zero => intro data r; rfl
  | succ n ih =>
    intro data r
    cases data with
    | nil => rfl
    | cons c cs =>
      rw [parseLoopF_cons]
      cases hf : FIXED_LENGTH_AIS ((c :: cs).take 2) with
      | some len =>
        simp only
        rw [ih]
        exact (processFixedAi_fields _ _ _).1
      | none =>
        simp only
        by_cases hv : VARIABLE_AIS ((c :: cs).take 2) = true
        · rw [if_pos hv, ih]
          exact (processVariableAi_fields _ _ _).1
        · rw [if_neg hv]

theorem parseLoopF_gtin_some (fuel : Nat) : ∀ (data : List Char)
    (r : Gs1ParseResult), r.gtin.isSome →
    (parseLoopF fuel data r).gtin.isSome := by
  induction fuel with
  | zero => intro data r h; exact h
  | succ n ih =>
    intro data r h
    cases data with
    | nil => exact h
    | cons c cs =>
      rw [parseLoopF_cons]
      cases hf : FIXED_LENGTH_AIS ((c :: cs).take 2) with
      | some len =>
        simp only
        exact ih _ _ (processFixedAi_gtin_some _ _ _ h)
      | none =>
        simp only
        by_cases hv : VARIABLE_AIS ((c :: cs).take 2) = true
        · rw [if_pos hv]
          apply ih
          rw [(processVariableAi_fields _ _ _).2.2.1]
          exact h
        · rw [if_neg hv]; exact h

theorem parseLoopF_cipInv (fuel : Nat) : ∀ (data : List Char)
    (r : Gs1ParseResult), CipInv r → CipInv (parseLoopF fuel data r) := by
  induction fuel with
  | zero => intro data r h; exact h
  | succ n ih =>
    intro data r h
    cases data with
    | nil => exact h
    | cons c cs =>
      rw [parseLoopF_cons]
      cases hf : FIXED_LENGTH_AIS ((c :: cs).take 2) with
      | some len =>
        simp only
        exact ih _ _ (processFixedAi_cipInv _ _ _ h)
      | none =>
        simp only
        by_cases hv : VARIABLE_AIS ((c :: cs).take 2) = true
        · rw [if_pos hv]
          apply ih
          intro cc hcc
          rw [(processVariableAi_fields _ _ _).2.1] at hcc
          obtain ⟨g, hg, hlen, hcg⟩ := h cc hcc
          exact ⟨g, by rw [(processVariableAi_fields _ _ _).2.2.1]; exact hg, hlen, hcg⟩
        · rw [if_neg hv]; exact h

/-! ### Normaliser helpers -/

theorem take2_eq_cons (l : List Char) (a b : Char) (h : l.take 2 = [a, b]) :
    l = a :: b :: l.drop 2 := by
  conv_lhs => rw [← List.take_append_drop 2 l, h]
  rfl

theorem ensureAi01Prefix_starts (d d' : List Char)
    (h : ensureAi01Prefix d = some d') : ∃ t, d' = '0' :: '1' :: t := by
  unfold ensureAi01Prefix at h
  split_ifs at h with h1 h2
  · simp only [Option.some.injEq] at h
    exact ⟨d.drop 2, by rw [← h]; exact take2_eq_cons d '0' '1' h1⟩
  · simp only [Option.some.injEq] at h
    exact ⟨d, h.symm⟩

theorem stripFnc1_marker (q p : List Char)
    (hq : q = [']', 'd', '2'] ∨ q = [']', 'Q', '3'] ∨ q = [']', 'C', '1']) :
    stripFnc1Prefix (q ++ p) = p := by
  rcases hq with rfl | rfl | rfl <;> simp [stripFnc1Prefix]

theorem stripFnc1_id (d : List Char)
    (h1 : d.take 3 ≠ [']', 'd', '2']) (h2 : d.take 3 ≠ [']', 'Q', '3'])
    (h3 : d.take 3 ≠ [']', 'C', '1']) :
    stripFnc1Prefix d = d := by
  unfold stripFnc1Prefix
  rw [if_neg]
  tauto

theorem stripFnc1_of_head (c : Char) (cs : List Char) (h : c ≠ ']') :
    stripFnc1Prefix (c :: cs) = c :: cs := by
  apply stripFnc1_id <;> intro hEq <;> simp at hEq <;> exact h hEq.1

/-! ### AI-table facts and the `Ai01FreeFields` suffix lemma -/

theorem fixedAi_length (ai : List Char) (n : Nat)
    (h : FIXED_LENGTH_AIS ai = some n) : ai.length = 2 := by
  unfold FIXED_LENGTH_AIS at h
  split_ifs at h with h1 h2
  · rcases h1 with rfl | rfl <;> rfl
  · rcases h2 with rfl | rfl | rfl | rfl | rfl <;> rfl

theorem varAi_spec (ai : List Char) (h : VARIABLE_AIS ai = true) :
    ai.length = 2 ∧ FIXED_LENGTH_AIS ai = none := by
  unfold VARIABLE_AIS at h
  simp only [Bool.or_eq_true, decide_eq_true_eq] at h
  rcases h with (((rfl | rfl) | rfl) | rfl) | rfl <;> exact ⟨rfl, rfl⟩

theorem processFixedAi_cip13_other (ai v : List Char) (r : Gs1ParseResult)
    (h : ai ≠ ['0', '1']) : (processFixedAi ai v r).cip13 = r.cip13 := by
  unfold processFixedAi
  rw [if_neg h]
  split_ifs <;> rfl

theorem ai01free_length (s : List Char) (hs : Ai01FreeFields s) :
    s = [] ∨ 2 ≤ s.length := by
  cases hs with
  | nil => exact Or.inl rfl
  | fixed ai v rest n hai h01 hv h =>
    right
    have h2 := fixedAi_length ai n hai
    simp [List.length_append, h2]
  | varSep ai v rest hai hGS h =>
    right
    have h2 := (varAi_spec ai hai).1
    simp [List.length_append, h2]
  | varEnd ai v hai hGS =>
    right
    have h2 := (varAi_spec ai hai).1
    simp [List.length_append, h2]

theorem parseLoop_ai01free (s : List Char) (hs : Ai01FreeFields s) :
    ∀ r : Gs1ParseResult, (parseLoop s r).cip13 = r.cip13 := by
  induction hs with
  | nil => intro r; rfl
  | fixed ai v rest n hai h01 hv hrest ih =>
    intro r
    obtain ⟨a, b, rfl⟩ : ∃ a b, ai = [a, b] := by
      match ai, fixedAi_length ai n hai with
      | [a, b], _ => exact ⟨a, b, rfl⟩
    have hstep := parseLoop_fixed a (b :: (v ++ rest)) r n hai
    rw [show ([a, b] ++ v ++ rest) = a :: b :: (v ++ rest) from rfl, hstep]
    have hdrop : (a :: b :: (v ++ rest)).drop (2 + n) = rest := by
      rw [show (2 + n) = n + 1 + 1 from by omega]
      simp only [List.drop_succ_cons]
      exact List.drop_left' hv
    have htake : ((a :: b :: (v ++ rest)).drop 2).take n = v := by
      simp only [List.drop_succ_cons, List.drop_zero]
      exact List.take_left' hv
    rw [hdrop, htake, ih]
    exact processFixedAi_cip13_other _ _ _ h01
  | varSep ai v rest hai hGS hrest ih =>
    intro r
    obtain ⟨a, b, rfl⟩ : ∃ a b, ai = [a, b] := by
      match ai, (varAi_spec ai hai).1 with
      | [a, b], _ => exact ⟨a, b, rfl⟩
    have hstep := parseLoop_var a (b :: (v ++ GS :: rest)) r (varAi_spec _ hai).2 hai
    rw [show ([a, b] ++ v ++ GS :: rest) = a :: b :: (v ++ GS :: rest) from rfl, hstep]
    have hdrop : (((a :: b :: (v ++ GS :: rest)).drop 2).dropWhile
        (fun x => !(x = GS))).drop 1 = rest := by
      simp only [List.drop_succ_cons, List.drop_zero]
      rw [List.dropWhile_append_of_pos ?hpos]
      case hpos =>
        intro x hx
        simp only [Bool.not_eq_true', decide_eq_false_iff_not]
        intro hxe
        exact hGS (hxe ▸ hx)
      rw [List.dropWhile_cons_of_neg (by simp)]
      rfl
    rw [hdrop, ih]
    exact (processVariableAi_fields _ _ _).2.1
  | varEnd ai v hai hGS =>
    intro r
    obtain ⟨a, b, rfl⟩ : ∃ a b, ai = [a, b] := by
      match ai, (varAi_spec ai hai).1 with
      | [a, b], _ => exact ⟨a, b, rfl⟩
    have hstep := parseLoop_var a (b :: v) r (varAi_spec _ hai).2 hai
    rw [show ([a, b] ++ v) = a :: b :: v from rfl, hstep]
    have hdrop : (((a :: b :: v).drop 2).dropWhile (fun x => !(x = GS))).drop 1 = [] := by
      simp only [List.drop_succ_cons, List.drop_zero]
      have hnil : v.dropWhile (fun x => !(x = GS)) = [] := by
        rw [List.dropWhile_eq_nil_iff]
        intro x hx
        simp only [Bool.not_eq_true', decide_eq_false_iff_not]
        intro hxe
        exact hGS (hxe ▸ hx)
      rw [hnil]
      rfl
    rw [hdrop, parseLoop_nil]
    exact (processVariableAi_fields _ _ _).2.1

/-- The first field of a normalised GS1 string: AI `01` consumes the next
14 characters, records them as the trade item code and derives the
product code; an `01`-free well-formed remainder never touches it. -/
theorem parseLoop_ai01_field (g s : List Char) (r : Gs1ParseResult)
    (hg : g.length = 14) (hs : Ai01FreeFields s) :
    (parseLoop ('0' :: '1' :: (g ++ s)) r).cip13 = some ((g.drop 1).take 13) := by
  have hf : FIXED_LENGTH_AIS (('0' :: '1' :: (g ++ s)).take 2) = some 14 := rfl
  rw [parseLoop_fixed '0' ('1' :: (g ++ s)) r 14 hf]
  have hdrop : ('0' :: '1' :: (g ++ s)).drop (2 + 14) = s := by
    rw [show (2 + 14 : Nat) = 14 + 1 + 1 from rfl]
    simp only [List.drop_succ_cons]
    exact List.drop_left' hg
  have htake : (('0' :: '1' :: (g ++ s)).drop 2).take 14 = g := by
    simp only [List.drop_succ_cons, List.drop_zero]
    exact List.take_left' hg
  rw [hdrop, htake, parseLoop_ai01free s hs]
  rw [show ('0' :: '1' :: (g ++ s)).take 2 = ['0', '1'] from rfl, processFixedAi_01]
  unfold gtinToCip13
  rw [if_pos hg]

/-! ### Claim C1 -/

/-- C1 (amended): for every 14-digit trade item code `g` starting `0340`,
`productCode` (`cip13`) equals `g`'s last 13 characters both when the
input is `01 ++ g` followed by further well-formed AI fields that do not
repeat AI `01`, and when the input is the bare `g` followed by at least
one such further field (so that the input reaches the parser's
16-character minimum).  The bare `g` alone, being 14 characters long, is
rejected by that minimum (see the counterexample). -/
theorem c1_amended_product_code (g s : List Char)
    (hlen : g.length = 14) (hdig : g.all Char.isDigit = true)
    (hpre : g.take 4 = ['0', '3', '4', '0'])
    (hs : Ai01FreeFields s) :
    (parseGs1DataMatrix (['0', '1'] ++ g ++ s)).cip13 = some (g.drop 1) ∧
    (s ≠ [] → (parseGs1DataMatrix (g ++ s)).cip13 = some (g.drop 1)) := by
  have htake13 : (g.drop 1).take 13 = g.drop 1 :=
    List.take_of_length_le (by simp [hlen])
  obtain ⟨t, rfl⟩ : ∃ t, g = '0' :: '3' :: '4' :: '0' :: t := by
    refine ⟨g.drop 4, ?_⟩
    conv_lhs => rw [← List.take_append_drop 4 g, hpre]
    rfl
  have ht : t.length = 10 := by
    have h4 := hlen
    simp only [List.length_cons] at h4
    omega
  constructor
  · -- prefixed input
    unfold parseGs1DataMatrix
    rw [if_neg (by simp; omega)]
    have hstrip : stripFnc1Prefix (['0', '1'] ++ ('0' :: '3' :: '4' :: '0' :: t) ++ s) =
        '0' :: '1' :: (('0' :: '3' :: '4' :: '0' :: t) ++ s) :=
      stripFnc1_of_head '0' _ (by decide)
    rw [hstrip]
    have hensure : ensureAi01Prefix ('0' :: '1' :: (('0' :: '3' :: '4' :: '0' :: t) ++ s)) =
        some ('0' :: '1' :: (('0' :: '3' :: '4' :: '0' :: t) ++ s)) := by
      have hc : List.take 2 ('0' :: '1' :: (('0' :: '3' :: '4' :: '0' :: t) ++ s)) =
          ['0', '1'] := rfl
      unfold ensureAi01Prefix
      rw [if_pos hc]
    rw [hensure]
    rw [parseLoop_ai01_field _ s _ hlen hs, htake13]
  · -- bare input
    intro hsne
    have hslen : 2 ≤ s.length := by
      rcases ai01free_length s hs with h | h
      · exact absurd h hsne
      · exact h
    unfold parseGs1DataMatrix
    rw [if_neg (by simp; omega)]
    have hstrip : stripFnc1Prefix (('0' :: '3' :: '4' :: '0' :: t) ++ s) =
        ('0' :: '3' :: '4' :: '0' :: t) ++ s :=
      stripFnc1_of_head '0' _ (by decide)
    rw [hstrip]
    have hdigt : t.all Char.isDigit = true := by
      simp only [List.all_cons, Bool.and_eq_true] at hdig
      exact hdig.2.2.2.2
    have hensure : ensureAi01Prefix (('0' :: '3' :: '4' :: '0' :: t) ++ s) =
        some ('0' :: '1' :: (('0' :: '3' :: '4' :: '0' :: t) ++ s)) := by
      have hc1 : ¬(List.take 2 (('0' :: '3' :: '4' :: '0' :: t) ++ s) = ['0', '1']) := by
        intro h
        have h2 : (['0', '3'] : List Char) = ['0', '1'] := h
        simp at h2
      have htdrop : ((('0' :: '3' :: '4' :: '0' :: t) ++ s).drop 4).take 10 = t := by
        simp only [List.cons_append, List.drop_succ_cons, List.drop_zero]
        exact List.take_left' ht
      have hc2 : List.take 4 (('0' :: '3' :: '4' :: '0' :: t) ++ s) = ['0', '3', '4', '0'] ∧
          14 ≤ (('0' :: '3' :: '4' :: '0' :: t) ++ s).length ∧
          (((('0' :: '3' :: '4' :: '0' :: t) ++ s).drop 4).take 10).all Char.isDigit = true := by
        refine ⟨rfl, by simp; omega, ?_⟩
        rw [htdrop]
        exact hdigt
      unfold ensureAi01Prefix
      rw [if_neg hc1, if_pos hc2]
      rfl
    rw [hensure]
    rw [parseLoop_ai01_field _ s _ hlen hs, htake13]

/-- C1 counterexample: the bare 14-digit trade item code `03400000000000`
with no further fields (and no `01` prefix) is 14 characters long, falls
below the parser's 16-character minimum, and yields a null `productCode`
rather than the code's last 13 digits. -/
theorem c1_counterexample_bare14 :
    (parseGs1DataMatrix
        ['0', '3', '4', '0', '0', '0', '0', '0', '0', '0', '0', '0', '0', '0']).cip13 ≠
      some ['3', '4', '0', '0', '0', '0', '0', '0', '0', '0', '0', '0', '0'] := by
  decide

/-- C1 witness: the amended theorem applied at the code `03400000000000`
with the further field `10AB` (batch `AB`). -/
theorem c1_witness :
    (parseGs1DataMatrix
        (['0', '1'] ++ ['0', '3', '4', '0', '0', '0', '0', '0', '0', '0', '0', '0', '0', '0'] ++
          ['1', '0', 'A', 'B'])).cip13 =
      some ['3', '4', '0', '0', '0', '0', '0', '0', '0', '0', '0', '0', '0'] ∧
    ((['1', '0', 'A', 'B'] : List Char) ≠ [] →
      (parseGs1DataMatrix
          (['0', '3', '4', '0', '0', '0', '0', '0', '0', '0', '0', '0', '0', '0'] ++
            ['1', '0', 'A', 'B'])).cip13 =
        some ['3', '4', '0', '0', '0', '0', '0', '0', '0', '0', '0', '0', '0']) :=
  c1_amended_product_code
    ['0', '3', '4', '0', '0', '0', '0', '0', '0', '0', '0', '0', '0', '0']
    ['1', '0', 'A', 'B'] (by decide) (by decide) (by decide)
    (Ai01FreeFields.varEnd ['1', '0'] ['A', 'B'] (by decide) (by decide))

/-! ### Claim C2 -/

/-- C2 counterexample: for the 13-character payload `0103400000000`, the
prefixed input `]d2` + payload reaches the 16-character minimum and
parses as GS1-structured, while the bare payload is rejected by the
minimum, so the two parse results differ. -/
theorem c2_counterexample_short_payload :
    parseGs1DataMatrix
        ([']', 'd', '2'] ++ ['0', '1', '0', '3', '4', '0', '0', '0', '0', '0', '0', '0', '0']) ≠
      parseGs1DataMatrix ['0', '1', '0', '3', '4', '0', '0', '0', '0', '0', '0', '0', '0'] := by
  decide

/-- C2 (amended): stripping any of the three recognised symbology markers
leaves the parse result unchanged provided the payload does not itself
begin with a recognised marker and its length is at most 12 or at least
16.  Payloads of length 13–15 can parse differently because the
16-character minimum is checked on the raw input, before the marker is
stripped. -/
theorem c2_amended_marker_invariance (q p : List Char)
    (hq : q = [']', 'd', '2'] ∨ q = [']', 'Q', '3'] ∨ q = [']', 'C', '1'])
    (hp1 : p.take 3 ≠ [']', 'd', '2']) (hp2 : p.take 3 ≠ [']', 'Q', '3'])
    (hp3 : p.take 3 ≠ [']', 'C', '1'])
    (hlen : p.length ≤ 12 ∨ 16 ≤ p.length) :
    parseGs1DataMatrix (q ++ p) = parseGs1DataMatrix p := by
  have hq3 : q.length = 3 := by rcases hq with rfl | rfl | rfl <;> rfl
  rcases hlen with hle | hge
  · have hc1 : (q ++ p).length < 16 := by simp [List.length_append, hq3]; omega
    have hc2 : p.length < 16 := by omega
    unfold parseGs1DataMatrix
    rw [if_pos hc1, if_pos hc2]
  · have hc1 : ¬((q ++ p).length < 16) := by simp [List.length_append, hq3]; omega
    have hc2 : ¬(p.length < 16) := by omega
    unfold parseGs1DataMatrix
    rw [if_neg hc1, if_neg hc2, stripFnc1_marker q p hq, stripFnc1_id p hp1 hp2 hp3]

/-- C2 witness: the amended theorem applied to the marker `]Q3` and a
16-character payload. -/
theorem c2_witness :
    parseGs1DataMatrix
        ([']', 'Q', '3'] ++
          ['0', '1', '0', '3', '4', '0', '0', '0', '0', '0', '0', '0', '0', '0', '0', '9']) =
      parseGs1DataMatrix
        ['0', '1', '0', '3', '4', '0', '0', '0', '0', '0', '0', '0', '0', '0', '0', '9'] :=
  c2_amended_marker_invariance _ _ (Or.inr (Or.inl rfl))
    (by decide) (by decide) (by decide) (by decide)

/-! ### Claim C5 -/

/-- C5 counterexample: the 15-character string `0340` + ten digits + `9`
is not a bare 14-digit trade item code, yet the normaliser accepts it and
prepends `01`, because the source regular expression `/^0340\d{10}/` is
unanchored on the right. -/
theorem c5_counterexample_unanchored :
    ensureAi01Prefix
        ['0', '3', '4', '0', '0', '0', '0', '0', '0', '0', '0', '0', '0', '0', '9'] =
      some ['0', '1', '0', '3', '4', '0', '0', '0', '0', '0', '0', '0', '0', '0', '0', '0', '9'] := by
  decide

/-- C5 (amended): after stripping, the normaliser returns the remainder
unchanged when it starts with `01`; it prepends `01` whenever the
remainder begins with `0340` followed by ten decimal digits, regardless
of the total length or of what follows; in every other case it returns
null. -/
theorem c5_amended_normaliser :
    (∀ d : List Char, d.take 2 = ['0', '1'] → ensureAi01Prefix d = some d) ∧
    (∀ ds rest : List Char, ds.length = 10 → ds.all Char.isDigit = true →
      ensureAi01Prefix (['0', '3', '4', '0'] ++ ds ++ rest) =
        some (['0', '1', '0', '3', '4', '0'] ++ ds ++ rest)) ∧
    (∀ d : List Char, d.take 2 ≠ ['0', '1'] →
      (¬∃ ds rest : List Char, ds.length = 10 ∧ ds.all Char.isDigit = true ∧
        d = ['0', '3', '4', '0'] ++ ds ++ rest) →
      ensureAi01Prefix d = none) := by
  refine ⟨?_, ?_, ?_⟩
  · intro d h
    unfold ensureAi01Prefix
    rw [if_pos h]
  · intro ds rest hds hdig
    have hc1 : ¬(List.take 2 (['0', '3', '4', '0'] ++ ds ++ rest) = ['0', '1']) := by
      intro h
      have h2 : (['0', '3'] : List Char) = ['0', '1'] := h
      simp at h2
    have hc2 : List.take 4 (['0', '3', '4', '0'] ++ ds ++ rest) = ['0', '3', '4', '0'] ∧
        14 ≤ (['0', '3', '4', '0'] ++ ds ++ rest).length ∧
        (((['0', '3', '4', '0'] ++ ds ++ rest).drop 4).take 10).all Char.isDigit = true := by
      refine ⟨rfl, by simp [hds], ?_⟩
      have hdt : ((['0', '3', '4', '0'] ++ ds ++ rest).drop 4).take 10 = ds := by
        have h4 : (['0', '3', '4', '0'] ++ ds ++ rest).drop 4 = ds ++ rest := rfl
        rw [h4]
        exact List.take_left' hds
      rw [hdt]
      exact hdig
    unfold ensureAi01Prefix
    rw [if_neg hc1, if_pos hc2]
    rfl
  · intro d h1 h2
    unfold ensureAi01Prefix
    rw [if_neg h1, if_neg ?cond]
    case cond =>
      rintro ⟨h4, hlen, hdig⟩
      apply h2
      refine ⟨(d.drop 4).take 10, d.drop 14, ?_, hdig, ?_⟩
      · rw [List.length_take, List.length_drop]
        omega
      · have hsplit : d.drop 4 = (d.drop 4).take 10 ++ (d.drop 4).drop 10 :=
          (List.take_append_drop 10 (d.drop 4)).symm
        have hdd : List.drop 10 (List.drop 4 d) = List.drop 14 d := by
          rw [List.drop_drop]
        conv_lhs => rw [← List.take_append_drop 4 d, h4]
        rw [← hdd, List.append_assoc, ← hsplit]

/-- C5 witness: the amended characterisation applied to a string starting
with `01`, a `0340` + ten digits + suffix string, and a string matching
neither pattern. -/
theorem c5_witness :
    ensureAi01Prefix ['0', '1', '7', '7'] = some ['0', '1', '7', '7'] ∧
    ensureAi01Prefix
        (['0', '3', '4', '0'] ++ ['1', '2', '3', '4', '5', '6', '7', '8', '9', '0'] ++ ['X']) =
      some (['0', '1', '0', '3', '4', '0'] ++
        ['1', '2', '3', '4', '5', '6', '7', '8', '9', '0'] ++ ['X']) ∧
    ensureAi01Prefix ['9', '9'] = none :=
  ⟨c5_amended_normaliser.1 _ (by decide),
   c5_amended_normaliser.2.1 _ _ (by decide) (by decide),
   c5_amended_normaliser.2.2 _ (by decide)
     (by
       rintro ⟨ds, rest, hl, -, h3⟩
       have h4 := congrArg List.length h3
       simp [hl] at h4)⟩

/-! ### Parse-level helpers for the result invariants -/

theorem parseGs1DataMatrix_cases (raw : List Char) :
    parseGs1DataMatrix raw = emptyResult ∨
    ∃ data, ensureAi01Prefix (stripFnc1Prefix raw) = some data ∧
      parseGs1DataMatrix raw = parseLoop data { emptyResult with isGs1 := true } := by
  unfold parseGs1DataMatrix
  split_ifs with h
  · exact Or.inl rfl
  · cases he : ensureAi01Prefix (stripFnc1Prefix raw) with
    | none => exact Or.inl rfl
    | some data => exact Or.inr ⟨data, rfl, rfl⟩

theorem parseGs1DataMatrix_cipInv (raw : List Char) :
    CipInv (parseGs1DataMatrix raw) := by
  rcases parseGs1DataMatrix_cases raw with h | ⟨data, hd, h⟩ <;> rw [h]
  · intro c hc
    exact absurd hc (by simp [emptyResult])
  · unfold parseLoop
    apply parseLoopF_cipInv
    intro c hc
    exact absurd hc (by simp [emptyResult])

theorem parseGs1DataMatrix_isGs1_loop (data : List Char) :
    (parseLoop data { emptyResult with isGs1 := true }).isGs1 = true := by
  unfold parseLoop
  rw [parseLoopF_isGs1]

/-! ### Claim C4 -/

/-- C4: for every input, a non-null `productCode` (`cip13`) implies a
non-null `tradeItemCode` (`gtin`) of length exactly 14, and an
unstructured result (`isGs1 = false`) has every other field null.  The
statement quantifies over all inputs, so it covers repeated AIs
(overwritten fields) and truncated inputs. -/
theorem c4_result_invariants (raw : List Char) :
    (∀ c, (parseGs1DataMatrix raw).cip13 = some c →
      ∃ g, (parseGs1DataMatrix raw).gtin = some g ∧ g.length = 14) ∧
    ((parseGs1DataMatrix raw).isGs1 = false →
      (parseGs1DataMatrix raw).cip13 = none ∧
      (parseGs1DataMatrix raw).gtin = none ∧
      (parseGs1DataMatrix raw).expiryDate = none ∧
      (parseGs1DataMatrix raw).batchNumber = none ∧
      (parseGs1DataMatrix raw).serialNumber = none) := by
  constructor
  · intro c hc
    obtain ⟨g, hg, hlen, -⟩ := parseGs1DataMatrix_cipInv raw c hc
    exact ⟨g, hg, hlen⟩
  · intro hgs
    rcases parseGs1DataMatrix_cases raw with h | ⟨data, hd, h⟩
    · rw [h]
      exact ⟨rfl, rfl, rfl, rfl, rfl⟩
    · rw [h] at hgs
      rw [parseGs1DataMatrix_isGs1_loop] at hgs
      cases hgs

/-- C4 witness: the invariant applied to a complete GS1 input (non-null
product code) and to a non-GS1 input (unstructured result). -/
theorem c4_witness :
    (∃ g, (parseGs1DataMatrix
        ['0', '1', '0', '3', '4', '0', '0', '0', '0', '0', '0', '0', '0', '0', '0', '0']).gtin =
          some g ∧ g.length = 14) ∧
    ((parseGs1DataMatrix ['a', 'b']).cip13 = none ∧
      (parseGs1DataMatrix ['a', 'b']).gtin = none ∧
      (parseGs1DataMatrix ['a', 'b']).expiryDate = none ∧
      (parseGs1DataMatrix ['a', 'b']).batchNumber = none ∧
      (parseGs1DataMatrix ['a', 'b']).serialNumber = none) :=
  ⟨(c4_result_invariants
      ['0', '1', '0', '3', '4', '0', '0', '0', '0', '0', '0', '0', '0', '0', '0', '0']).1
      ['3', '4', '0', '0', '0', '0', '0', '0', '0', '0', '0', '0', '0'] (by decide),
   (c4_result_invariants ['a', 'b']).2 (by decide)⟩

/-! ### Claim C9 -/

/-- C9: a structured result always carries a non-null `tradeItemCode`
(the normalised string starts with AI `01`, so the first loop iteration
records one), and a concrete truncated repeat of AI `01` shows the
recorded trade item code can be shorter than 14 characters with a null
`productCode`. -/
theorem c9_gtin_of_structured :
    (∀ raw : List Char, (parseGs1DataMatrix raw).isGs1 = true →
      (parseGs1DataMatrix raw).gtin ≠ none) ∧
    ((parseGs1DataMatrix
        (['0', '1', '0', '3', '4', '0', '0', '0', '0', '0', '0', '0', '0', '0', '0', '0'] ++
          ['0', '1', '1', '2', '3'])).gtin = some ['1', '2', '3'] ∧
      (parseGs1DataMatrix
        (['0', '1', '0', '3', '4', '0', '0', '0', '0', '0', '0', '0', '0', '0', '0', '0'] ++
          ['0', '1', '1', '2', '3'])).cip13 = none) := by
  constructor
  · intro raw h
    rcases parseGs1DataMatrix_cases raw with hc | ⟨data, hd, hc⟩
    · rw [hc] at h
      cases h
    · rw [hc]
      obtain ⟨t, rfl⟩ := ensureAi01Prefix_starts _ _ hd
      have hf : FIXED_LENGTH_AIS (('0' :: '1' :: t).take 2) = some 14 := rfl
      rw [parseLoop_fixed '0' ('1' :: t) _ 14 hf]
      have hsome : (processFixedAi (('0' :: '1' :: t).take 2)
          ((('0' :: '1' :: t).drop 2).take 14)
          { emptyResult with isGs1 := true }).gtin.isSome := by
        rw [show ('0' :: '1' :: t).take 2 = ['0', '1'] from rfl, processFixedAi_01]
        rfl
      have h2 : ((parseLoop (('0' :: '1' :: t).drop (2 + 14))
          (processFixedAi (('0' :: '1' :: t).take 2)
            ((('0' :: '1' :: t).drop 2).take 14)
            { emptyResult with isGs1 := true }))).gtin.isSome :=
        parseLoopF_gtin_some _ _ _ hsome
      exact Option.isSome_iff_ne_none.mp h2
  · exact ⟨by decide, by decide⟩

/-- C9 witness: the first part applied to a concrete structured input. -/
theorem c9_witness :
    (parseGs1DataMatrix
        ['0', '1', '0', '3', '4', '0', '0', '0', '0', '0', '0', '0', '0', '0', '9', '9']).gtin ≠
      none :=
  c9_gtin_of_structured.1
    ['0', '1', '0', '3', '4', '0', '0', '0', '0', '0', '0', '0', '0', '0', '9', '9'] (by decide)

/-! ### Claim C7 -/

/-- C7 counterexample: the 16-character input `01` + fourteen `A`s is
accepted by the normaliser (which checks digits only on the bare-GTIN
repair path, not when `01` is already present), so the classifier returns
a result whose `productCode` is thirteen letters, not thirteen decimal
digits. -/
theorem c7_counterexample_letters :
    parseScanResult (['0', '1'] ++ List.replicate 14 'A') =
      some { cip13 := List.replicate 13 'A', expiryDate := none, batchNumber := none,
             source := ScanSource.datamatrix } ∧
    (List.replicate 13 'A').all Char.isDigit = false := by
  constructor
  · decide
  · decide

/-- C7 (amended): every non-null `ScanResult` has a `productCode` of
exactly 13 characters; it is guaranteed to be 13 decimal digits only in
the plain-barcode branch. -/
theorem c7_amended_product_code_length (s : List Char) (r : ScanResult)
    (h : parseScanResult s = some r) :
    r.cip13.length = 13 ∧
    (r.source = ScanSource.barcode → r.cip13.all Char.isDigit = true) := by
  unfold parseScanResult at h
  by_cases hgs : ((parseGs1DataMatrix s).isGs1 &&
      strTruthy (parseGs1DataMatrix s).cip13) = true
  · rw [if_pos hgs] at h
    simp only [Option.some.injEq] at h
    subst h
    cases hc : (parseGs1DataMatrix s).cip13 with
    | none =>
      rw [hc] at hgs
      simp [strTruthy] at hgs
    | some c =>
      obtain ⟨g, hg, hlen, hceq⟩ := parseGs1DataMatrix_cipInv s c hc
      constructor
      · show ((some c).getD []).length = 13
        rw [Option.getD_some, hceq]
        simp [List.length_take, List.length_drop, hlen]
      · intro hsrc
        cases hsrc
  · rw [if_neg hgs] at h
    by_cases hcip : isCip13 (jsTrim s) = true
    · rw [if_pos hcip] at h
      simp only [Option.some.injEq] at h
      subst h
      unfold isCip13 at hcip
      simp only [Bool.and_eq_true, decide_eq_true_eq] at hcip
      exact ⟨hcip.1.1, fun _ => hcip.1.2⟩
    · rw [if_neg hcip] at h
      cases h

/-- C7 witness: the amended theorem applied to a plain 13-digit barcode
scan. -/
theorem c7_witness :
    ({ cip13 := ['3', '4', '0', '0', '0', '0', '0', '0', '0', '0', '0', '0', '2'],
       expiryDate := none, batchNumber := none,
       source := ScanSource.barcode } : ScanResult).cip13.length = 13 ∧
    (({ cip13 := ['3', '4', '0', '0', '0', '0', '0', '0', '0', '0', '0', '0', '2'],
        expiryDate := none, batchNumber := none,
        source := ScanSource.barcode } : ScanResult).source = ScanSource.barcode →
      ({ cip13 := ['3', '4', '0', '0', '0', '0', '0', '0', '0', '0', '0', '0', '2'],
         expiryDate := none, batchNumber := none,
         source := ScanSource.barcode } : ScanResult).cip13.all Char.isDigit = true) :=
  c7_amended_product_code_length
    ['3', '4', '0', '0', '0', '0', '0', '0', '0', '0', '0', '0', '2'] _ (by decide)

/-! ### Claim C6 -/

/-- C6: whenever the GS1 parse does not succeed (unstructured result or
null product code), the classifier trims the input and returns the
plain-barcode result exactly when the trimmed text is 13 decimal digits
starting `340` (the spec's `source: "plain"` names the source's
`"barcode"` tag); a 13-digit numeric string not starting `340` yields
null. -/
theorem c6_plain_branch (s : List Char)
    (h : (parseGs1DataMatrix s).isGs1 = false ∨ (parseGs1DataMatrix s).cip13 = none) :
    parseScanResult s =
      (if isCip13 (jsTrim s) then
        some { cip13 := jsTrim s, expiryDate := none, batchNumber := none,
               source := ScanSource.barcode }
      else none) ∧
    ((jsTrim s).length = 13 → (jsTrim s).all Char.isDigit = true →
      (jsTrim s).take 3 ≠ ['3', '4', '0'] → parseScanResult s = none) := by
  have hgate : ¬(((parseGs1DataMatrix s).isGs1 &&
      strTruthy (parseGs1DataMatrix s).cip13) = true) := by
    rcases h with h | h <;> rw [h] <;> simp [strTruthy]
  have hmain : parseScanResult s =
      (if isCip13 (jsTrim s) then
        some { cip13 := jsTrim s, expiryDate := none, batchNumber := none,
               source := ScanSource.barcode }
      else none) := by
    unfold parseScanResult
    rw [if_neg hgate]
  refine ⟨hmain, ?_⟩
  intro h1 h2 h3
  have hcip : isCip13 (jsTrim s) = false := by
    unfold isCip13
    simp [h3]
  rw [hmain, hcip]
  simp

/-- C6 witness: the characterisation applied to a plain barcode scan and
the rejection applied to a 13-digit string not starting `340`. -/
theorem c6_witness :
    parseScanResult ['3', '4', '0', '0', '9', '3', '0', '0', '0', '0', '0', '0', '1'] =
      (if isCip13 (jsTrim ['3', '4', '0', '0', '9', '3', '0', '0', '0', '0', '0', '0', '1']) then
        some { cip13 := jsTrim ['3', '4', '0', '0', '9', '3', '0', '0', '0', '0', '0', '0', '1'],
               expiryDate := none, batchNumber := none, source := ScanSource.barcode }
      else none) ∧
    parseScanResult ['1', '2', '3', '4', '5', '6', '7', '8', '9', '0', '1', '2', '3'] = none :=
  ⟨(c6_plain_branch ['3', '4', '0', '0', '9', '3', '0', '0', '0', '0', '0', '0', '1']
      (Or.inl (by decide))).1,
   (c6_plain_branch ['1', '2', '3', '4', '5', '6', '7', '8', '9', '0', '1', '2', '3']
      (Or.inl (by decide))).2 (by decide) (by decide) (by decide)⟩

/-! ### Claim C8 -/

/-- C8: the classifier is a total function — every input yields either a
result or null (the embedding is built from total functions, so no
exception can arise); in particular the empty string, whitespace-only
strings, and strings shorter than 16 characters that are not valid plain
barcodes all return null. -/
theorem c8_total_no_exception :
    (∀ s : List Char, parseScanResult s = none ∨ ∃ r, parseScanResult s = some r) ∧
    parseScanResult [] = none ∧
    (∀ s : List Char, s.all isJsWhitespace = true → parseScanResult s = none) ∧
    (∀ s : List Char, s.length < 16 → isCip13 (jsTrim s) = false →
      parseScanResult s = none) := by
  have hshort : ∀ s : List Char, s.length < 16 → isCip13 (jsTrim s) = false →
      parseScanResult s = none := by
    intro s hlen hcip
    have hGs : parseGs1DataMatrix s = emptyResult := by
      unfold parseGs1DataMatrix
      rw [if_pos hlen]
    unfold parseScanResult
    rw [hGs]
    simp [emptyResult, strTruthy, hcip]
  refine ⟨?_, ?_, ?_, hshort⟩
  · intro s
    cases h : parseScanResult s with
    | none => exact Or.inl rfl
    | some r => exact Or.inr ⟨r, rfl⟩
  · rfl
  · intro s hws
    have htrim : jsTrim s = [] := by
      have h1 : s.dropWhile isJsWhitespace = [] :=
        List.dropWhile_eq_nil_iff.mpr (fun x hx => List.all_eq_true.mp hws x hx)
      unfold jsTrim
      rw [h1]
      rfl
    have hGs : parseGs1DataMatrix s = emptyResult := by
      by_cases hlen : s.length < 16
      · unfold parseGs1DataMatrix
        rw [if_pos hlen]
      · cases s with
        | nil => simp at hlen
        | cons c cs =>
          have hcw : isJsWhitespace c = true := by
            simp only [List.all_cons, Bool.and_eq_true] at hws
            exact hws.1
          have hcne : c ≠ ']' := by
            intro he
            rw [he] at hcw
            exact absurd hcw (by decide)
          have hc0 : c ≠ '0' := by
            intro he
            rw [he] at hcw
            exact absurd hcw (by decide)
          have hens : ensureAi01Prefix (c :: cs) = none := by
            unfold ensureAi01Prefix
            rw [if_neg ?h1, if_neg ?h2]
            case h1 =>
              intro he
              have he2 : c :: List.take 1 cs = ['0', '1'] := he
              injection he2 with he3
              exact hc0 he3
            case h2 =>
              rintro ⟨he, -, -⟩
              have he2 : c :: List.take 3 cs = ['0', '3', '4', '0'] := he
              injection he2 with he3
              exact hc0 he3
          unfold parseGs1DataMatrix
          rw [if_neg hlen, stripFnc1_of_head c cs hcne, hens]
    unfold parseScanResult
    rw [hGs, htrim]
    simp [emptyResult, strTruthy, isCip13]

/-- C8 witness: the null-return cases applied to a whitespace-only string
and to a short non-barcode string. -/
theorem c8_witness :
    parseScanResult [' ', ' '] = none ∧ parseScanResult ['a', 'b'] = none :=
  ⟨c8_total_no_exception.2.2.1 [' ', ' '] (by decide),
   c8_total_no_exception.2.2.2 ['a', 'b'] (by decide) (by decide)⟩

/-! ### Digit-string arithmetic for the date interpreter -/

theorem jsParseInt_twoDigit : ∀ n : Nat, n < 100 →
    jsParseInt (twoDigitChars n) = some (n : Int) := by decide

theorem padStart2_intToChars : ∀ d : Nat, d < 100 →
    padStart2 (intToChars (d : Int)) = twoDigitChars d := by decide

theorem intToChars_resolveYear : ∀ yy : Nat, yy < 100 →
    intToChars ((resolveYear yy : Nat) : Int) = fourDigitChars (resolveYear yy) := by
  decide

theorem resolveYear_int : ∀ yy : Nat, yy < 100 →
    (if (yy : Int) < 50 then 2000 + (yy : Int) else 1900 + (yy : Int)) =
      ((resolveYear yy : Nat) : Int) := by decide

theorem daysInMonth_lastDay : ∀ yy : Nat, yy < 100 → ∀ m : Nat, m < 13 → 1 ≤ m →
    daysInMonth ((resolveYear yy : Nat) : Int) (m : Int) =
      ((lastDayOfMonth (resolveYear yy) m : Nat) : Int) := by decide

theorem lastDayOfMonth_lt (y m : Nat) : lastDayOfMonth y m < 100 := by
  unfold lastDayOfMonth
  split_ifs <;> omega

/-- The date interpreter on an arbitrary six-digit `YYMMDD` value, fully
evaluated: `none` when the month is out of range, otherwise the ISO
rendering with the resolved year and the last-day-of-month convention for
`DD = 00`. -/
theorem parseGs1Date_sixDigits (yy mm dd : Nat) (hyy : yy < 100) (hmm : mm < 100)
    (hdd : dd < 100) :
    parseGs1Date (sixDigitChars yy mm dd) =
      if mm < 1 ∨ 12 < mm then none
      else some (fourDigitChars (resolveYear yy) ++ '-' :: twoDigitChars mm ++
        '-' :: twoDigitChars (if dd = 0 then lastDayOfMonth (resolveYear yy) mm else dd)) := by
  have hlen : (sixDigitChars yy mm dd).length = 6 := by
    simp [sixDigitChars, twoDigitChars]
  have ht2 : (sixDigitChars yy mm dd).take 2 = twoDigitChars yy := by
    unfold sixDigitChars
    rw [List.append_assoc]
    exact List.take_left' rfl
  have hd2 : ((sixDigitChars yy mm dd).drop 2).take 2 = twoDigitChars mm := by
    unfold sixDigitChars
    rw [List.append_assoc]
    have hdd2 : List.drop 2 (twoDigitChars yy ++ (twoDigitChars mm ++ twoDigitChars dd)) =
        twoDigitChars mm ++ twoDigitChars dd := List.drop_left' rfl
    rw [hdd2]
    exact List.take_left' rfl
  have hd4 : ((sixDigitChars yy mm dd).drop 4).take 2 = twoDigitChars dd := by
    unfold sixDigitChars
    have hdd4 : List.drop 4 (twoDigitChars yy ++ twoDigitChars mm ++ twoDigitChars dd) =
        twoDigitChars dd := List.drop_left' rfl
    rw [hdd4]
    exact List.take_of_length_le (by simp [twoDigitChars])
  unfold parseGs1Date
  rw [if_pos hlen, ht2, hd2, hd4, jsParseInt_twoDigit yy hyy,
    jsParseInt_twoDigit mm hmm, jsParseInt_twoDigit dd hdd]
  dsimp only
  by_cases hm : mm < 1 ∨ 12 < mm
  · have hmI : ((mm : Int) < 1 ∨ 12 < (mm : Int)) := by
      rcases hm with hm | hm
      · exact Or.inl (by exact_mod_cast hm)
      · exact Or.inr (by exact_mod_cast hm)
    rw [if_pos hmI, if_pos hm]
  · have hmI : ¬((mm : Int) < 1 ∨ 12 < (mm : Int)) := by
      rcases not_or.mp hm with ⟨hm1, hm2⟩
      push_neg at hm1 hm2 ⊢
      constructor
      · exact_mod_cast hm1
      · exact_mod_cast hm2
    rw [if_neg hmI, if_neg hm, resolveYear_int yy hyy,
      intToChars_resolveYear yy hyy, padStart2_intToChars mm hmm]
    by_cases hd : dd = 0
    · subst hd
      rw [if_pos rfl, if_pos (by norm_num)]
      have hm1 : 1 ≤ mm := by omega
      have hm2 : mm < 13 := by omega
      rw [daysInMonth_lastDay yy hyy mm hm2 hm1,
        padStart2_intToChars _ (lastDayOfMonth_lt (resolveYear yy) mm)]
    · rw [if_neg hd, if_neg (by exact_mod_cast hd),
        padStart2_intToChars dd hdd]

/-! ### Claim C3 -/

/-- C3: for six-digit `YYMMDD` values, an out-of-range month yields a
null expiry date; otherwise the result is `YYYY-MM-DD` with zero-padded
month and day, the year resolved as `2000+YY` for `YY < 50` and `1900+YY`
otherwise, and `DD = 00` replaced by the last calendar day of the
resolved month, leap-year aware — `240200` gives `2024-02-29` and
`270200` gives `2027-02-28`.  (For all-digit values no component can fail
to parse, so that null case of the claim is vacuous.) -/
theorem c3_expiry_interpretation :
    (∀ yy mm dd : Nat, yy < 100 → mm < 100 → dd < 100 → (mm < 1 ∨ 12 < mm) →
      parseGs1Date (sixDigitChars yy mm dd) = none) ∧
    (∀ yy mm dd : Nat, yy < 100 → mm < 100 → dd < 100 → 1 ≤ mm → mm ≤ 12 →
      parseGs1Date (sixDigitChars yy mm dd) =
        some (fourDigitChars (resolveYear yy) ++ '-' :: twoDigitChars mm ++
          '-' :: twoDigitChars (if dd = 0 then lastDayOfMonth (resolveYear yy) mm else dd))) ∧
    parseGs1Date ['2', '4', '0', '2', '0', '0'] =
      some ['2', '0', '2', '4', '-', '0', '2', '-', '2', '9'] ∧
    parseGs1Date ['2', '7', '0', '2', '0', '0'] =
      some ['2', '0', '2', '7', '-', '0', '2', '-', '2', '8'] := by
  refine ⟨?_, ?_, by decide, by decide⟩
  · intro yy mm dd hyy hmm hdd hbad
    rw [parseGs1Date_sixDigits yy mm dd hyy hmm hdd, if_pos hbad]
  · intro yy mm dd hyy hmm hdd hm1 hm2
    rw [parseGs1Date_sixDigits yy mm dd hyy hmm hdd, if_neg (by omega)]

/-- C3 witness: the general statement applied to the leap-year case
`YY=24, MM=02, DD=00` and the out-of-range month `240001`. -/
theorem c3_witness :
    parseGs1Date (sixDigitChars 24 2 0) =
      some (fourDigitChars (resolveYear 24) ++ '-' :: twoDigitChars 2 ++
        '-' :: twoDigitChars (if 0 = 0 then lastDayOfMonth (resolveYear 24) 2 else 0)) ∧
    parseGs1Date (sixDigitChars 24 0 1) = none :=
  ⟨c3_expiry_interpretation.2.1 24 2 0 (by decide) (by decide) (by decide)
      (by decide) (by decide),
   c3_expiry_interpretation.1 24 0 1 (by decide) (by decide) (by decide)
      (Or.inl (by decide))⟩

/-! ### Claim C10 -/

/-- C10: for six-digit values with month in `01..12` and a nonzero day,
the interpreter uses the day literally with no calendar validation —
`230631` yields `2023-06-31` although June has 30 days — and a null
result arises only from a wrong length, an unparseable component, or an
out-of-range month (whenever the length is 6, all three components parse
and the month is in range, the result is non-null). -/
theorem c10_day_used_literally :
    (∀ yy mm dd : Nat, yy < 100 → mm < 100 → dd < 100 → 1 ≤ mm → mm ≤ 12 → 1 ≤ dd →
      parseGs1Date (sixDigitChars yy mm dd) =
        some (fourDigitChars (resolveYear yy) ++ '-' :: twoDigitChars mm ++
          '-' :: twoDigitChars dd)) ∧
    parseGs1Date ['2', '3', '0', '6', '3', '1'] =
      some ['2', '0', '2', '3', '-', '0', '6', '-', '3', '1'] ∧
    (∀ v : List Char, v.length ≠ 6 → parseGs1Date v = none) ∧
    (∀ v : List Char, v.length = 6 → ∀ y m d : Int,
      jsParseInt (v.take 2) = some y → jsParseInt ((v.drop 2).take 2) = some m →
      jsParseInt ((v.drop 4).take 2) = some d → 1 ≤ m → m ≤ 12 →
      (parseGs1Date v).isSome = true) := by
  refine ⟨?_, by decide, ?_, ?_⟩
  · intro yy mm dd hyy hmm hdd hm1 hm2 hd1
    rw [parseGs1Date_sixDigits yy mm dd hyy hmm hdd, if_neg (by omega),
      if_neg (by omega)]
  · intro v hv
    unfold parseGs1Date
    rw [if_neg hv]
  · intro v hv y m d hy hm hd hm1 hm2
    unfold parseGs1Date
    rw [if_pos hv, hy, hm, hd]
    dsimp only
    rw [if_neg (by omega)]
    rfl

/-- C10 witness: the literal-day statement applied to `230631` (June 31st)
and the non-null statement applied to the same parsed components. -/
theorem c10_witness :
    parseGs1Date (sixDigitChars 23 6 31) =
      some (fourDigitChars (resolveYear 23) ++ '-' :: twoDigitChars 6 ++
        '-' :: twoDigitChars 31) ∧
    (parseGs1Date ['2', '3', '1', '2', '0', '5']).isSome = true :=
  ⟨c10_day_used_literally.1 23 6 31 (by decide) (by decide) (by decide)
      (by decide) (by decide) (by decide),
   c10_day_used_literally.2.2.2 ['2', '3', '1', '2', '0', '5'] (by decide)
      23 12 5 (by decide) (by decide) (by decide) (by decide) (by decide)⟩

end Apotheca
